import Mathlib

/-!
Shallow embedding of `ufo_tools/containers.py`: the chaining-container
family (`Container`, `Maybe`, `Array`, `Result`) together with the shared
argument-injection helper `Container._value_then`, and proofs of the
specification claims about them.

Python values that may be `None` are modelled as `Option α` with `none`
standing for Python `None`.  A Python callable that may raise is modelled
as a Lean function into `Except Exc _`; `Except.error e` stands for the
call raising the exception `e`.  Exception *instances* are modelled by the
structure `Exc` (carrying the exact class of the instance and a message);
exception *classes* by the enumeration `ExcClass`, restricted to the
classes that actually occur in the repository's code and tests.
-/

namespace UfoTools

/-- Python exception classes appearing in the code and its tests, plus the
class `EmptyReductionError` which is named by the spec for empty
reductions.  Modelled from the spec: no class of that name exists anywhere
in the source; it is included only so that statements about it can be
expressed (the code itself never constructs it). -/
inductive ExcClass where
  | exceptionCls
  | arithmeticError
  | zeroDivisionError
  | typeError
  | assertionError
  | emptyReductionError
  deriving DecidableEq, Repr

/-- `pySubclass c k` is `issubclass(c, k)` restricted to the modelled
classes: every class is a subclass of itself and of `Exception`, and
`ZeroDivisionError` is a subclass of `ArithmeticError` (mirroring
Python's builtin exception hierarchy). -/
def pySubclass (c k : ExcClass) : Bool :=
  c == k || k == ExcClass.exceptionCls ||
    (c == ExcClass.zeroDivisionError && k == ExcClass.arithmeticError)

/-- A Python exception instance: its exact (dynamic) class and a message.
`type(e)` in the source corresponds to the `cls` field. -/
structure Exc where
  cls : ExcClass
  msg : String
  deriving DecidableEq, Repr

/-- Python keyword-argument dictionaries, as association lists with the
usual no-duplicate-keys reading; only insertion order and lookup matter
for the claims. -/
def Dict (α : Type) : Type := List (String × α)

/-- `d[k]` as an option: first binding of `k` in `d`. -/
def dictLookup {α : Type} (d : Dict α) (k : String) : Option α :=
  match d with
  | [] => none
  | kv :: rest => if kv.1 = k then some kv.2 else dictLookup rest k

/-- Python's dict union `d1 | d2` (PEP 584): keys of `d1` in order with
values overridden by `d2` where present, then the keys of `d2` not in
`d1`; on a common key the right-hand operand's value wins. -/
def pyDictUnion {α : Type} (d1 d2 : Dict α) : Dict α :=
  (d1.map (fun kv =>
    match dictLookup d2 kv.1 with
    | some v => (kv.1, v)
    | none => kv))
  ++ d2.filter (fun kv => (dictLookup d1 kv.1).isNone)

/-- Python `list.insert(i, v)` for a non-negative index: inserts at `i`,
clamping to an append when `i` exceeds the length. -/
def pyInsert {α : Type} (l : List α) (i : Nat) (v : α) : List α :=
  if l.length ≤ i then l ++ [v] else l.take i ++ v :: l.drop i

/-- The `func` argument accepted by `Container.then`/`_value_then`: either
a plain callable (held value passed as the first positional argument), or
a tuple `(func, int)` (value inserted at that positional index), or a
tuple `(func, str)` (value passed under that keyword).  The underlying
callable is modelled as a function of the positional-argument list and the
keyword-argument dict it is finally invoked with. -/
inductive FuncArg (α β : Type) where
  | plain (f : α → List α → Dict α → β)
  | atIndex (i : Nat) (f : List α → Dict α → β)
  | atKeyword (k : String) (f : List α → Dict α → β)

/-- `Container._value_then(value, func, *args, **kwargs)`: resolves the
injection locus and invokes the callable.
  - plain `func`: `func(value, *args_list, **kwargs)`;
  - `(func, i)` with `i` an int: `args_list.insert(i, value)` then
    `func(*args_list, **kwargs)`;
  - `(func, keyword)` with a string: `kwargs = {keyword: value} | kwargs`
    then `func(*args_list, **kwargs)`. -/
def value_then {α β : Type} (value : α) (func : FuncArg α β)
    (args : List α) (kwargs : Dict α) : β :=
  match func with
  | FuncArg.plain f => f value args kwargs
  | FuncArg.atIndex i f => f (pyInsert args i value) kwargs
  | FuncArg.atKeyword k f => f args (pyDictUnion [(k, value)] kwargs)

/-- The base container: holds exactly one value. -/
structure Container (α : Type) where
  value : α
  deriving DecidableEq, Repr

/-- `Container.then`: applies the transform to the held value via
`_value_then` and wraps the result in a new base container. -/
def Container.then' {α β : Type} (self : Container α) (func : FuncArg α β)
    (args : List α) (kwargs : Dict α) : Container β :=
  ⟨value_then self.value func args kwargs⟩

/-- `Container.unwrap`: returns the held value. -/
def Container.unwrap {α : Type} (self : Container α) : α :=
  self.value

/-- The `Maybe` container: its Python value is either `None` (`none`) or a
present value.  Transforms passed to its `then` may themselves return
`None`, hence their result type `Option α`. -/
structure Maybe (α : Type) where
  value : Option α
  deriving DecidableEq, Repr

/-- `Maybe.then`: if the held value is `None` returns `Maybe(None)`
without invoking the function; otherwise applies `_value_then` to the held
value exactly as the base container does. -/
def Maybe.then' {α : Type} (self : Maybe α) (func : FuncArg α (Option α))
    (args : List α) (kwargs : Dict α) : Maybe α :=
  match self.value with
  | none => ⟨none⟩
  | some v => ⟨value_then v func args kwargs⟩

/-- `Maybe.unwrap(default=None)`: the held value if present, else the
default (which itself defaults to Python `None`, i.e. `none`). -/
def Maybe.unwrap {α : Type} (self : Maybe α) (default : Option α) :
    Option α :=
  match self.value with
  | none => default
  | some v => some v

/-- The `Array` container: holds a list of values (an explicit argument
list, or a generator materialised eagerly at construction). -/
structure Array (α : Type) where
  value : List α
  deriving DecidableEq, Repr

/-- `Array.then`: maps the `_value_then` substitution over every element,
left to right. -/
def Array.then' {α β : Type} (self : Array α) (func : FuncArg α β)
    (args : List α) (kwargs : Dict α) : Array β :=
  ⟨self.value.map (fun i => value_then i func args kwargs)⟩

/-- `Array.filter`: keeps the elements on which the substituted call is
truthy (the call's truthiness is modelled as a `Bool` result). -/
def Array.filter {α : Type} (self : Array α) (func : FuncArg α Bool)
    (args : List α) (kwargs : Dict α) : Array α :=
  ⟨self.value.filter (fun i => value_then i func args kwargs)⟩

/-- The exception raised by `functools.reduce` on an empty iterable with
no initial value: a `TypeError`. -/
def reduceEmptyExc : Exc :=
  ⟨ExcClass.typeError, "reduce() of empty iterable with no initial value"⟩

/-- Left fold of a possibly-raising combiner, propagating the first raised
exception (how `functools.reduce(func, seq, initial)` behaves when `func`
may raise). -/
def pyFoldl {α : Type} (f : α → α → Except Exc α) (acc : α) :
    List α → Except Exc α
  | [] => Except.ok acc
  | x :: xs =>
    match f acc x with
    | Except.ok r => pyFoldl f r xs
    | Except.error e => Except.error e

/-- `functools.reduce(func, seq)` with no initial value: raises
`TypeError` on an empty sequence, otherwise the first element seeds the
accumulator and the combiner runs once per remaining element. -/
def pyReduce {α : Type} (f : α → α → Except Exc α) :
    List α → Except Exc α
  | [] => Except.error reduceEmptyExc
  | x :: xs => pyFoldl f x xs

/-- `Array.reduce(func, initial=None)`: wraps `functools.reduce` and puts
the result in a base `Container` (not an `Array`).  `initial` is the
Python parameter, whose default `None` is `none`; the code tests
`initial is None`, so an explicit `None` argument is indistinguishable
from an omitted one.  Exceptions (from the combiner or from the empty
reduction) propagate to the caller, hence the `Except` result. -/
def Array.reduce {α : Type} (self : Array α) (func : α → α → Except Exc α)
    (initial : Option α) : Except Exc (Container α) :=
  match initial with
  | none => (pyReduce func self.value).map (fun r => ⟨r⟩)
  | some i => (pyFoldl func i self.value).map (fun r => ⟨r⟩)

/-- A total combiner lifted to the possibly-raising shape. -/
def liftTotal {α : Type} (g : α → α → α) : α → α → Except Exc α :=
  fun a b => Except.ok (g a b)

/-- The `Result` container.  `Result(value, exception=None)` stores the
value (Python `None` in an error state), the captured exception if any,
and the private `_value_to_recover` checkpoint (initialised to `None` by
the constructor and set by `then`/`recover` on failure). -/
structure Result (α : Type) where
  value : Option α
  exception : Option Exc
  valueToRecover : Option α
  deriving DecidableEq, Repr

/-- The Ok state: a value, no exception; the constructor and every
successful `then`/`recover` leave `_value_to_recover` as `None`. -/
def Result.Ok {α : Type} (v : Option α) : Result α :=
  ⟨v, none, none⟩

/-- The Err state as produced by a failed `then`/`recover`: value `None`,
the captured exception, and the recovery checkpoint. -/
def Result.Err {α : Type} (e : Exc) (r : Option α) : Result α :=
  ⟨none, some e, r⟩

/-- `Result.then(func)`: if an exception is already stored, returns `self`
unchanged (Python exception instances are always truthy, so
`if self.exception:` tests presence); otherwise calls `func(self.value)`,
wrapping a normal return in a fresh Ok and capturing a raised exception as
an Err whose `_value_to_recover` is the pre-call value.  The method itself
is total: no exception escapes it. -/
def Result.then' {α : Type} (self : Result α)
    (func : Option α → Except Exc (Option α)) : Result α :=
  match self.exception with
  | some _ => self
  | none =>
    match func self.value with
    | Except.ok r => Result.Ok r
    | Except.error e => Result.Err e self.value

/-- `Result.unwrap(default=DEFAULT, *exceptions)`.  The `DEFAULT`
sentinel is distinct from Python `None`, so the default parameter is
`Option (Option α)`: `none` means not given, `some d` means given (`d`
itself may be Python `None`).  Raising is modelled as `Except.error`. -/
def Result.unwrap {α : Type} (self : Result α)
    (default : Option (Option α)) (exceptions : List ExcClass) :
    Except Exc (Option α) :=
  match self.exception with
  | none => Except.ok self.value
  | some e =>
    match default with
    | none => Except.error e
    | some d =>
      if exceptions.isEmpty then Except.ok d
      else if exceptions.contains e.cls then Except.ok d
      else Except.error e

/-- `Result.recover(func)`: in an error state, applies `func` to the
stored `_value_to_recover`; success re-enters Ok, and a failure stores the
new exception while carrying the *same* checkpoint forward.  Outside the
error state it returns `self` without invoking `func`. -/
def Result.recover {α : Type} (self : Result α)
    (func : Option α → Except Exc (Option α)) : Result α :=
  match self.exception with
  | some _ =>
    match func self.valueToRecover with
    | Except.ok r => Result.Ok r
    | Except.error e => Result.Err e self.valueToRecover
  | none => self

/-- `Result.in_error_state()`. -/
def Result.in_error_state {α : Type} (self : Result α) : Bool :=
  self.exception.isSome

/-! ### Container equality

`Container.__eq__(self, other)` is
`isinstance(other, type(self)) and self.value == other.value`, inherited
unchanged by every subclass.  What a Python `a == b` evaluates to also
depends on CPython's rich-comparison dispatch (`do_richcompare`): when the
operands' types differ and the right operand's type is a subclass of the
left's, the right operand's `__eq__` is tried first, and its result is
final unless it is `NotImplemented` (this `__eq__` returns `False`, never
`NotImplemented`).  We model the class of a container by a `Variant` tag,
the inheritance relation (every variant is a subclass of the base
`Container`), the method, and the operator dispatch. -/

/-- The four container classes. -/
inductive Variant where
  | container
  | maybe
  | array
  | result
  deriving DecidableEq, Repr

/-- `issubclass(v, w)` for container classes: reflexivity, and every
class is a subclass of the base `Container`. -/
def variantSubclass (v w : Variant) : Bool :=
  v == w || w == Variant.container

/-- A container seen through the eyes of `__eq__`: its class tag and its
held value (held values of the compared containers are modelled at a
common Lean type, as Python compares them dynamically with `==`). -/
structure TaggedContainer (α : Type) where
  variant : Variant
  value : α

/-- `Container.__eq__(self, other)`:
`isinstance(other, type(self))` — i.e. `other`'s class is a subclass of
`self`'s — and the held values are equal. -/
def eqMethod {α : Type} [DecidableEq α]
    (self other : TaggedContainer α) : Bool :=
  variantSubclass other.variant self.variant && decide (self.value = other.value)

/-- The Python expression `a == b` for two containers: CPython's
`do_richcompare` calls the right operand's (inherited) `__eq__` first when
its class is a strict subclass of the left's, and that call's non-
`NotImplemented` result is final; otherwise the left operand's `__eq__`
decides (its `False` is likewise final, as it never returns
`NotImplemented`). -/
def pyEq {α : Type} [DecidableEq α] (a b : TaggedContainer α) : Bool :=
  if a.variant != b.variant && variantSubclass b.variant a.variant then
    eqMethod b a
  else
    eqMethod a b

/-! ### Sanity checks against the repository's test suite -/

example :
    ((Result.Ok (some (3 : Nat))).then'
        (fun _ =>
          Except.error ⟨ExcClass.zeroDivisionError, "division by zero"⟩)
      ).in_error_state = true := rfl

example :
    ((Array.mk [1, 2]).reduce (liftTotal (fun a b => a + b)) none).map
      Container.unwrap = Except.ok 3 := rfl

example :
    ((Maybe.mk (none : Option Nat)).then'
        (FuncArg.plain (fun x _ _ => some (x + 3))) [] []
      ).unwrap (some 4) = some 4 := rfl

/-! ### The claims -/

/-- C1: on an `Ok(v)` result container, `apply` (`Result.then`) wraps a
successful transform result `r` as `Ok(r)`, and captures a raised
exception `e` as `Err(e, recovery_value=v)` with the pre-failure value `v`
as the checkpoint.  `Result.then'` is a total function into `Result α`
(never `Except`), so `apply` itself propagates no failure to the
caller. -/
theorem C1_result_then_on_ok {α : Type} (v : Option α)
    (f : Option α → Except Exc (Option α)) :
    (Result.Ok v).then' f =
      match f v with
      | Except.ok r => Result.Ok r
      | Except.error e => Result.Err e v := by
  cases hf : f v <;> simp [Result.then', Result.Ok, Result.Err, hf]

/-- C2: on `Err(e, r)`, `recover(g)` re-enters `Ok(r2)` when `g(r)`
returns `r2`, and on a failure `e2` of `g` produces
`Err(e2, recovery_value=r)`, carrying forward the *same* checkpoint `r`;
on `Ok(v)` it returns `Ok(v)` unchanged for every `g` (so `g` is never
consulted). -/
theorem C2_result_recover {α : Type} (e : Exc) (r v : Option α)
    (g : Option α → Except Exc (Option α)) :
    ((Result.Err e r).recover g =
      match g r with
      | Except.ok r2 => Result.Ok r2
      | Except.error e2 => Result.Err e2 r) ∧
    (Result.Ok v).recover g = Result.Ok v := by
  constructor
  · cases hg : g r <;> simp [Result.recover, Result.Ok, Result.Err, hg]
  · rfl

/-- C3: the error state is absorbing under `apply`: for every `Err(e, r)`
and every transform `f`, `Result.then'` returns the very same state, the
transform's behaviour being irrelevant (it is never invoked). -/
theorem C3_err_absorbing_then {α : Type} (e : Exc) (r : Option α)
    (f : Option α → Except Exc (Option α)) :
    (Result.Err e r).then' f = Result.Err e r := rfl

/-- C4: the three-tier `unwrap(default, *exceptions)` contract: `Ok(v)`
returns `v` whatever the default and allow-list; `Err` with no default
raises the stored error; `Err` with a default and an empty allow-list
returns the default unconditionally; `Err` with a default and a non-empty
allow-list returns the default exactly when the stored error's class is
listed, and otherwise raises the stored error. -/
theorem C4_result_unwrap_contract {α : Type} (v : Option α) (e : Exc)
    (r d : Option α) (dflt : Option (Option α)) (excs : List ExcClass) :
    (Result.Ok v).unwrap dflt excs = Except.ok v ∧
    (Result.Err e r).unwrap none excs = Except.error e ∧
    (Result.Err e r).unwrap (some d) [] = Except.ok d ∧
    (excs ≠ [] →
      (Result.Err e r).unwrap (some d) excs =
        if excs.contains e.cls then Except.ok d else Except.error e) := by
  refine ⟨rfl, rfl, rfl, ?_⟩
  intro h
  cases excs with
  | nil => exact absurd rfl h
  | cons k ks => rfl

/-- Witness for C4 at concrete inputs: `Err(ZeroDivisionError, 3)` with
`default=4` and allow-list `[ZeroDivisionError]` returns the default. -/
theorem C4_result_unwrap_contract_witness :
    (Result.Err ⟨ExcClass.zeroDivisionError, "division by zero"⟩
        (some (3 : Nat))).unwrap (some (some 4)) [ExcClass.zeroDivisionError] =
      Except.ok (some 4) := by
  have h :=
    (C4_result_unwrap_contract (some (3 : Nat))
      ⟨ExcClass.zeroDivisionError, "division by zero"⟩ (some 3) (some 4) none
      [ExcClass.zeroDivisionError]).2.2.2 (by decide)
  simpa using h

/-- C5 counterexample: the claim says the held value overrides a
caller-supplied keyword of the same name.  With held value `1` injected at
keyword `"y"` and the caller also supplying `y=45`, the invoked callable
observes `y = 45` — the caller's value, not the container's `1` — because
`{keyword: value} | kwargs` is right-biased. -/
theorem C5_namedslot_counterexample :
    value_then (1 : Nat)
        (FuncArg.atKeyword "y" (fun _ kw => dictLookup kw "y")) []
        [("y", 45)] = some 45 ∧
      (45 : Nat) ≠ 1 := by
  constructor
  · rfl
  · decide

/-- C5 as amended: `NamedSlot(name)` injection binds the held value under
`name` only when the caller has not supplied that name; a caller-supplied
keyword of the same name takes precedence (the dict union
`{keyword: value} | kwargs` is right-biased).  The second conjunct shows
what the callable observes under `name`: the caller's value when present,
the held value otherwise. -/
theorem C5_namedslot_caller_wins {α β : Type} (f : List α → Dict α → β)
    (k : String) (v : α) (args : List α) (kwargs : Dict α) :
    value_then v (FuncArg.atKeyword k f) args kwargs =
      f args (pyDictUnion [(k, v)] kwargs) ∧
    dictLookup (pyDictUnion [(k, v)] kwargs) k =
      some ((dictLookup kwargs k).getD v) := by
  refine ⟨rfl, ?_⟩
  cases h : dictLookup kwargs k with
  | none => simp [pyDictUnion, dictLookup, h]
  | some w => simp [pyDictUnion, dictLookup, h]

/-- C6: container equality under Python's `==` is variant-sensitive:
`a == b` holds exactly when the two containers are of the same variant
and their held values are equal; in particular containers of different
variants are never equal, whatever their data.  (The inherited
`__eq__`'s `isinstance` test alone would accept a subclass instance on
the right, but CPython's subclass-reflected rich-comparison dispatch
evaluates the subclass side's `__eq__` first, whose `False` is final.) -/
theorem C6_eq_variant_sensitive {α : Type} [DecidableEq α]
    (a b : TaggedContainer α) :
    pyEq a b = true ↔ a.variant = b.variant ∧ a.value = b.value := by
  obtain ⟨va, x⟩ := a
  obtain ⟨vb, y⟩ := b
  cases va <;> cases vb <;>
    simp [pyEq, eqMethod, variantSubclass]

/-- C7 counterexample: `reduce` on an empty sequence with no initial
value raises `functools.reduce`'s `TypeError`, not any
`EmptyReductionError` — no class of that name exists in the code. -/
theorem C7_reduce_empty_counterexample :
    Array.reduce (⟨[]⟩ : Array Nat) (liftTotal (fun a b => a + b)) none =
        Except.error reduceEmptyExc ∧
      reduceEmptyExc.cls = ExcClass.typeError ∧
      reduceEmptyExc.cls ≠ ExcClass.emptyReductionError := by
  refine ⟨rfl, rfl, ?_⟩
  decide

/-- `functools.reduce` with a total combiner is the reference sequential
left fold. -/
theorem pyFoldl_liftTotal {α : Type} (g : α → α → α) :
    ∀ (l : List α) (acc : α),
      pyFoldl (liftTotal g) acc l = Except.ok (l.foldl g acc)
  | [], _ => rfl
  | x :: xs, acc => by
    simpa [pyFoldl, liftTotal, List.foldl] using pyFoldl_liftTotal g xs (g acc x)

/-- C7 as amended: `reduce` with `initial` supplied is the reference
sequential left fold from `initial` (an empty sequence yields `initial`
unchanged), wrapped in a base `Container`, not an `Array` (visible in the
return type); with `initial` omitted the first element seeds the
accumulator; and on an empty sequence with no initial value it raises —
synchronously, never capturing — `functools.reduce`'s `TypeError`
(`reduceEmptyExc`), there being no `EmptyReductionError` in the code. -/
theorem C7_reduce_contract {α : Type} (l : List α) (g : α → α → α) (i x : α)
    (f : α → α → Except Exc α) :
    Array.reduce ⟨l⟩ (liftTotal g) (some i) = Except.ok ⟨l.foldl g i⟩ ∧
    Array.reduce ⟨x :: l⟩ (liftTotal g) none = Except.ok ⟨l.foldl g x⟩ ∧
    Array.reduce (⟨[]⟩ : Array α) f none = Except.error reduceEmptyExc := by
  refine ⟨?_, ?_, rfl⟩
  · simp [Array.reduce, pyFoldl_liftTotal, Except.map]
  · simp [Array.reduce, pyReduce, pyFoldl_liftTotal, Except.map]

/-- C8: `Maybe.then` on an absent value yields an absent-valued container
for *every* transform, argument list and keyword dict (so the transform
is never consulted); on a present value it agrees with the base
container's `then` on the same value and arguments. -/
theorem C8_maybe_then_absent_skips {α : Type} (func : FuncArg α (Option α))
    (args : List α) (kwargs : Dict α) (v : α) :
    Maybe.then' ⟨none⟩ func args kwargs = (⟨none⟩ : Maybe α) ∧
    (Maybe.then' ⟨some v⟩ func args kwargs).value =
      (Container.then' ⟨v⟩ func args kwargs).value := by
  exact ⟨rfl, rfl⟩

/-- C10: a transform that legitimately returns `None` on a present value
is indistinguishable from absence: the resulting container equals one
seeded with absence, every subsequent `then` skips its transform and
stays absent, and `unwrap(default=d)` returns `d` rather than the `None`
the transform produced. -/
theorem C10_maybe_none_conflation {α : Type} (v : α)
    (func : FuncArg α (Option α)) (args : List α) (kwargs : Dict α) (d : α)
    (h : value_then v func args kwargs = none) :
    Maybe.then' ⟨some v⟩ func args kwargs = (⟨none⟩ : Maybe α) ∧
    (∀ (func2 : FuncArg α (Option α)) (args2 : List α) (kwargs2 : Dict α),
      (Maybe.then' ⟨some v⟩ func args kwargs).then' func2 args2 kwargs2 =
        ⟨none⟩) ∧
    (Maybe.then' ⟨some v⟩ func args kwargs).unwrap (some d) = some d := by
  have h1 : Maybe.then' ⟨some v⟩ func args kwargs = (⟨none⟩ : Maybe α) := by
    simp [Maybe.then', h]
  refine ⟨h1, ?_, ?_⟩
  · intro func2 args2 kwargs2
    rw [h1]
    rfl
  · rw [h1]
    rfl

/-- Witness for C10 at concrete inputs: held value `0`, a transform that
returns `None`, default `9`. -/
theorem C10_maybe_none_conflation_witness :
    value_then (0 : Nat)
        (FuncArg.plain (fun _ _ _ => (none : Option Nat))) [] [] = none ∧
    Maybe.then' ⟨some (0 : Nat)⟩
        (FuncArg.plain (fun _ _ _ => (none : Option Nat))) [] [] =
      (⟨none⟩ : Maybe Nat) ∧
    (Maybe.then' ⟨some (0 : Nat)⟩
        (FuncArg.plain (fun _ _ _ => (none : Option Nat))) []
        []).unwrap (some 9) = some 9 := by
  refine ⟨rfl, ?_, ?_⟩
  · exact (C10_maybe_none_conflation 0
      (FuncArg.plain (fun _ _ _ => (none : Option Nat))) [] [] 9 rfl).1
  · exact (C10_maybe_none_conflation 0
      (FuncArg.plain (fun _ _ _ => (none : Option Nat))) [] [] 9 rfl).2.2

/-- C9: `unwrap`'s allow-list matches on the stored error's exact class
(`type(self.exception) in exceptions`): an error whose class is a strict
subclass of a listed class — the subclass itself not listed — is raised,
not defaulted. -/
theorem C9_unwrap_exact_class_match {α : Type} (e : Exc) (r d : Option α)
    (K : ExcClass) (hsub : pySubclass e.cls K = true) (hne : e.cls ≠ K) :
    (Result.Err e r).unwrap (some d) [K] = Except.error e := by
  simp [Result.unwrap, Result.Err]
  exact hne

/-- Witness for C9 at concrete inputs: a stored `ZeroDivisionError` (a
strict subclass of `ArithmeticError`) with allow-list
`[ArithmeticError]` is raised, not replaced by the default. -/
theorem C9_unwrap_exact_class_match_witness :
    pySubclass ExcClass.zeroDivisionError ExcClass.arithmeticError = true ∧
    ExcClass.zeroDivisionError ≠ ExcClass.arithmeticError ∧
    (Result.Err ⟨ExcClass.zeroDivisionError, "division by zero"⟩
        (some (3 : Nat))).unwrap (some (some 4)) [ExcClass.arithmeticError] =
      Except.error ⟨ExcClass.zeroDivisionError, "division by zero"⟩ := by
  refine ⟨by decide, by decide, ?_⟩
  exact C9_unwrap_exact_class_match
    ⟨ExcClass.zeroDivisionError, "division by zero"⟩ (some 3) (some 4)
    ExcClass.arithmeticError (by decide) (by decide)

end UfoTools
